import Mathlib

/-!
Shallow embedding of the CS330 `SceneManager` (Source/SceneManager.cpp):
the bounded GPU-texture registry, the material table, the transform
composer and the per-draw shader-state staging, together with theorems
settling the specification claims about them.

Modelling conventions:
* `float` values that the code only stores and copies (colors, shininess,
  matrix entries) are embedded as real numbers; the code performs no
  floating-point comparisons on them.
* The C array `m_textureIDs[16]` together with the counter
  `m_loadedTextures` is embedded as the list of its occupied prefix
  (entries `0 .. m_loadedTextures-1`): every loop in the source is bounded
  by `m_loadedTextures`, so the unoccupied entries are unobservable.
  `m_loadedTextures` is the length of the list.
* Calls into OpenGL are embedded explicitly: the texture name produced by
  `glGenTextures` is an input of the embedding, and teardown returns the
  list of GL calls it makes, so that resource-release claims are statable.
* `std::string::compare(t) == 0` holds exactly when the strings are equal,
  and is embedded as equality.
-/

/-- One entry of `m_textureIDs`: a tag and the stored GL texture name
(`ID` is a C `int`; `-1` is the registry's not-found sentinel). -/
structure TEXTURE_ID where
  tag : String
  ID : Int
deriving DecidableEq, Repr

/-- The metadata returned by a successful `stbi_load` decode; the raw
pixel bytes are irrelevant to every claim and are not carried. -/
structure ImageInfo where
  width : Int
  height : Int
  colorChannels : Int
deriving DecidableEq, Repr

/-- A material descriptor exactly as in `SceneManager.h`: diffuse color,
specular color, shininess and tag. -/
structure OBJECT_MATERIAL where
  diffuseColor : ℝ × ℝ × ℝ
  specularColor : ℝ × ℝ × ℝ
  shininess : ℝ
  tag : String

/-- The registry state of a `SceneManager`: the occupied prefix of
`m_textureIDs` (with `m_loadedTextures` its length) and
`m_objectMaterials`. -/
structure SceneManagerState where
  textureIDs : List TEXTURE_ID
  objectMaterials : List OBJECT_MATERIAL

/-- Occupied-slot count `m_loadedTextures`. -/
def SceneManagerState.loadedTextures (s : SceneManagerState) : Nat :=
  s.textureIDs.length

/-- A call into the GL texture-object API, recorded so that claims about
freeing handles can be stated.  `genTexture n` is `glGenTextures(1, &x)`
returning the fresh name `n`; `deleteTexture n` is `glDeleteTextures`
on the name `n` (never issued by this code). -/
inductive GLCall where
  | genTexture (name : Int)
  | deleteTexture (name : Int)
deriving DecidableEq, Repr

/-- `SceneManager::CreateGLTexture`.  `image` is the decode outcome of
`stbi_load` (`none` when the file could not be parsed); `textureID` is
the name produced by `glGenTextures`.  On a 3- or 4-channel image the
code uploads the texture and registers `{tag, textureID}` at index
`m_loadedTextures` and increments the counter — with no capacity check,
so at `m_loadedTextures = 16` the write `m_textureIDs[16]` is out of
bounds of the 16-entry array; the list embedding records it as extending
the sequence past 16.  On any other channel count, or on decode failure,
it returns `false` with the registry untouched. -/
def CreateGLTexture (image : Option ImageInfo) (textureID : Int)
    (tag : String) (s : SceneManagerState) : Bool × SceneManagerState :=
  match image with
  | some img =>
    if img.colorChannels = 3 then
      (true, { s with textureIDs := s.textureIDs ++ [⟨tag, textureID⟩] })
    else if img.colorChannels = 4 then
      (true, { s with textureIDs := s.textureIDs ++ [⟨tag, textureID⟩] })
    else
      (false, s)
  | none => (false, s)

/-- `SceneManager::DestroyGLTextures`.  For each `i < m_loadedTextures`
the code executes `glGenTextures(1, &m_textureIDs[i].ID)` — generating a
fresh texture name (supplied here by `fresh i`) and overwriting the
stored handle with it; it never calls `glDeleteTextures`, never clears
the tags and never resets `m_loadedTextures`.  Returns the new state and
the list of GL calls issued. -/
def DestroyGLTextures (fresh : Nat → Int) (s : SceneManagerState) :
    SceneManagerState × List GLCall :=
  ({ s with textureIDs := s.textureIDs.mapIdx fun i t => { t with ID := fresh i } },
   (List.range s.textureIDs.length).map fun i => GLCall.genTexture (fresh i))

/-- The scanning loop of `SceneManager::FindTextureID`: first entry whose
tag matches yields its stored `ID`; otherwise `-1`. -/
def findTextureIDAux : List TEXTURE_ID → String → Int
  | [], _ => -1
  | t :: ts, tag => if t.tag = tag then t.ID else findTextureIDAux ts tag

/-- `SceneManager::FindTextureID`. -/
def FindTextureID (s : SceneManagerState) (tag : String) : Int :=
  findTextureIDAux s.textureIDs tag

/-- The scanning loop of `SceneManager::FindTextureSlot`, with `idx` the
running index: first entry whose tag matches yields its index; otherwise
`-1`. -/
def findTextureSlotAux : List TEXTURE_ID → String → Nat → Int
  | [], _, _ => -1
  | t :: ts, tag, idx => if t.tag = tag then (idx : Int) else findTextureSlotAux ts tag (idx + 1)

/-- `SceneManager::FindTextureSlot`. -/
def FindTextureSlot (s : SceneManagerState) (tag : String) : Int :=
  findTextureSlotAux s.textureIDs tag 0

/-- The scanning loop of `SceneManager::FindMaterial`: the first entry
whose tag matches copies its diffuse color, specular color and shininess
into the out-parameter (the `tag` field of the out-parameter is not
written); with no match the out-parameter keeps its value. -/
def findMaterialAux : List OBJECT_MATERIAL → String → OBJECT_MATERIAL → OBJECT_MATERIAL
  | [], _, m => m
  | d :: ds, tag, m =>
    if d.tag = tag then
      { m with diffuseColor := d.diffuseColor,
               specularColor := d.specularColor,
               shininess := d.shininess }
    else
      findMaterialAux ds tag m

/-- `SceneManager::FindMaterial`.  `material` is the caller's
out-parameter; the result pairs the returned `bool` with the
out-parameter's value after the call.  Note the source returns `false`
only for an empty registry and `true` for any non-empty registry, even
when no tag matched. -/
def FindMaterial (s : SceneManagerState) (tag : String)
    (material : OBJECT_MATERIAL) : Bool × OBJECT_MATERIAL :=
  if s.objectMaterials.length = 0 then
    (false, material)
  else
    (true, findMaterialAux s.objectMaterials tag material)

/-- The staged shader uniforms written by the staging methods: the
string-keyed uniform bag of the `ShaderManager`, restricted to the
uniforms these operations write (`objectColor`, `bUseTexture`,
`objectTexture`, `material.diffuseColor`, `material.specularColor`,
`material.shininess`).  The bag is sticky: a field keeps its value until
some call overwrites it.  The shader-manager pointer is assumed non-null
(the staging methods dereference it). -/
structure ShaderState where
  objectColor : ℝ × ℝ × ℝ × ℝ
  bUseTexture : Bool
  objectTexture : Int
  materialDiffuseColor : ℝ × ℝ × ℝ
  materialSpecularColor : ℝ × ℝ × ℝ
  materialShininess : ℝ

/-- `SceneManager::SetShaderColor`: builds `currentColor` from the four
components, stages `bUseTexture := false` and `objectColor :=
currentColor`. -/
def SetShaderColor (r g b a : ℝ) (sh : ShaderState) : ShaderState :=
  { sh with bUseTexture := false, objectColor := (r, g, b, a) }

/-- `SceneManager::SetShaderTexture`: stages `bUseTexture := true` and
the slot resolved by `FindTextureSlot` as the sampler index. -/
def SetShaderTexture (s : SceneManagerState) (textureTag : String)
    (sh : ShaderState) : ShaderState :=
  { sh with bUseTexture := true, objectTexture := FindTextureSlot s textureTag }

/-- `SceneManager::SetShaderMaterial`.  The local variable
`OBJECT_MATERIAL material` is default-initialized in C++, so its members
are indeterminate; its (arbitrary) initial value is the explicit input
`material0`.  When the registry is non-empty the code calls
`FindMaterial` and, on a `true` return, stages the out-parameter's three
material fields — which are `material0`'s fields whenever no tag
matched, since `FindMaterial` returns `true` for every non-empty
registry. -/
def SetShaderMaterial (s : SceneManagerState) (materialTag : String)
    (material0 : OBJECT_MATERIAL) (sh : ShaderState) : ShaderState :=
  if 0 < s.objectMaterials.length then
    let r := FindMaterial s materialTag material0
    if r.1 then
      { sh with materialDiffuseColor := r.2.diffuseColor,
                materialSpecularColor := r.2.specularColor,
                materialShininess := r.2.shininess }
    else
      sh
  else
    sh

section RegistryLemmas

/-- An element read by `getElem?` is a member of the list. -/
theorem mem_of_getElem?_eq_some {α : Type} {l : List α} {k : Nat} {a : α}
    (h : l[k]? = some a) : a ∈ l := by
  have hk : k < l.length := by
    by_contra hk
    simp [List.getElem?_eq_none (by omega : l.length ≤ k)] at h
  rw [List.getElem?_eq_getElem hk] at h
  cases h
  exact List.getElem_mem hk

/-- The slot scan returns the sentinel exactly when no entry's tag
matches. -/
theorem findTextureSlotAux_eq_neg_one (ts : List TEXTURE_ID) (tag : String) :
    ∀ idx : Nat, (findTextureSlotAux ts tag idx = -1 ↔ ∀ t ∈ ts, t.tag ≠ tag) := by
  induction ts with
  | nil => intro idx; simp [findTextureSlotAux]
  | cons t ts ih =>
    intro idx
    by_cases h : t.tag = tag
    · simp only [findTextureSlotAux, if_pos h]
      constructor
      · intro hidx; exact absurd hidx (by omega)
      · intro hall; exact absurd h (hall t (by simp))
    · simp only [findTextureSlotAux, if_neg h]
      rw [ih (idx + 1)]
      constructor
      · intro hall u hu
        rcases List.mem_cons.mp hu with rfl | hu
        · exact h
        · exact hall u hu
      · intro hall u hu
        exact hall u (List.mem_cons_of_mem _ hu)

/-- When every stored handle differs from the sentinel, the ID scan
returns the sentinel exactly when no entry's tag matches. -/
theorem findTextureIDAux_eq_neg_one (ts : List TEXTURE_ID) (tag : String)
    (hID : ∀ t ∈ ts, t.ID ≠ -1) :
    (findTextureIDAux ts tag = -1 ↔ ∀ t ∈ ts, t.tag ≠ tag) := by
  induction ts with
  | nil => simp [findTextureIDAux]
  | cons t ts ih =>
    by_cases h : t.tag = tag
    · simp only [findTextureIDAux, if_pos h]
      constructor
      · intro hid; exact absurd hid (hID t (by simp))
      · intro hall; exact absurd h (hall t (by simp))
    · simp only [findTextureIDAux, if_neg h]
      rw [ih fun u hu => hID u (List.mem_cons_of_mem _ hu)]
      constructor
      · intro hall u hu
        rcases List.mem_cons.mp hu with rfl | hu
        · exact h
        · exact hall u hu
      · intro hall u hu
        exact hall u (List.mem_cons_of_mem _ hu)

/-- When some entry's tag matches, both scans select the same first
matching entry: the slot scan returns its index (offset by the running
index) and the ID scan returns that entry's stored handle. -/
theorem findTextureAux_found (ts : List TEXTURE_ID) (tag : String) :
    ∀ idx : Nat, (∃ t ∈ ts, t.tag = tag) →
      ∃ k : Nat, k < ts.length ∧
        findTextureSlotAux ts tag idx = ((idx + k : Nat) : Int) ∧
        ∃ t, ts[k]? = some t ∧ t.tag = tag ∧ findTextureIDAux ts tag = t.ID := by
  induction ts with
  | nil => intro idx h; simp at h
  | cons t ts ih =>
    intro idx h
    by_cases htag : t.tag = tag
    · refine ⟨0, by simp, ?_, t, by simp, htag, ?_⟩
      · simp [findTextureSlotAux, htag]
      · simp [findTextureIDAux, htag]
    · have hts : ∃ u ∈ ts, u.tag = tag := by
        rcases h with ⟨u, hu, hutag⟩
        rcases List.mem_cons.mp hu with rfl | hu
        · exact absurd hutag htag
        · exact ⟨u, hu, hutag⟩
      rcases ih (idx + 1) hts with ⟨k, hk, hslot, u, hget, hutag, hid⟩
      refine ⟨k + 1, by simpa using Nat.succ_lt_succ hk, ?_, u, by simpa using hget, hutag, ?_⟩
      · rw [findTextureSlotAux, if_neg htag, hslot]
        congr 1
        omega
      · rw [findTextureIDAux, if_neg htag, hid]

end RegistryLemmas

/-- A registry state whose 16 slots are all occupied (16 successful
loads). -/
def fullRegistry : SceneManagerState :=
  ⟨List.replicate 16 ⟨"t", 1⟩, []⟩

/-- C1: the claim says a 17th `CreateGLTexture` on a full registry fails
with a capacity-exceeded failure (returns `false`) and leaves the 16
slots and the occupied-slot count unchanged.  The code has no capacity
check: on a registry with all 16 slots occupied, a further load of a
successfully decoded 3-channel image returns `true` and grows the
occupied-slot count to 17 — in C++ the write `m_textureIDs[16]` is out
of the array's bounds. -/
theorem createGLTexture_no_capacity_check :
    (CreateGLTexture (some ⟨64, 64, 3⟩) 17 "extra" fullRegistry).1 = true ∧
    (CreateGLTexture (some ⟨64, 64, 3⟩) 17 "extra" fullRegistry).2.loadedTextures = 17 := by
  constructor <;> rfl

/-- A registry holding one loaded texture tagged `desk` with GL name 7. -/
def oneTexState : SceneManagerState :=
  ⟨[⟨"desk", 7⟩], []⟩

/-- C2: the claim says that after `DestroyGLTextures` every previously
registered tag resolves to the sentinel `-1`, the occupied-slot count is
0 and every created handle has been freed.  The code instead calls
`glGenTextures` on each occupied slot (allocating a fresh name and
overwriting the stored one), never calls `glDeleteTextures`, and leaves
the tags and `m_loadedTextures` untouched: on a registry holding the tag
`desk`, afterwards `FindTextureSlot` still returns slot 0, the count is
still 1, and the GL call log contains an allocation and no free. -/
theorem destroyGLTextures_leaks :
    FindTextureSlot (DestroyGLTextures (fun _ => 9) oneTexState).1 "desk" = 0 ∧
    (DestroyGLTextures (fun _ => 9) oneTexState).1.loadedTextures = 1 ∧
    (DestroyGLTextures (fun _ => 9) oneTexState).2 = [GLCall.genTexture 9] ∧
    ∀ n : Int, GLCall.deleteTexture n ∉ (DestroyGLTextures (fun _ => 9) oneTexState).2 := by
  refine ⟨rfl, rfl, rfl, ?_⟩
  intro n
  simp [DestroyGLTextures, oneTexState]

/-- C4: loading any image that decoded with 3 or 4 color channels, on a
registry with fewer than 16 occupied slots, returns `true`, and
`FindTextureSlot` on the registered tag afterwards returns a slot index
in `[0, 15]`. -/
theorem createGLTexture_success_findSlot (img : ImageInfo) (textureID : Int)
    (tag : String) (s : SceneManagerState)
    (hch : img.colorChannels = 3 ∨ img.colorChannels = 4)
    (hcap : s.loadedTextures < 16) :
    (CreateGLTexture (some img) textureID tag s).1 = true ∧
    0 ≤ FindTextureSlot (CreateGLTexture (some img) textureID tag s).2 tag ∧
    FindTextureSlot (CreateGLTexture (some img) textureID tag s).2 tag ≤ 15 := by
  have hreg : CreateGLTexture (some img) textureID tag s =
      (true, { s with textureIDs := s.textureIDs ++ [⟨tag, textureID⟩] }) := by
    rcases hch with h | h <;> simp [CreateGLTexture, h]
  rw [hreg]
  refine ⟨rfl, ?_⟩
  have hmem : ∃ t ∈ s.textureIDs ++ [(⟨tag, textureID⟩ : TEXTURE_ID)], t.tag = tag :=
    ⟨⟨tag, textureID⟩, by simp, rfl⟩
  rcases findTextureAux_found _ tag 0 hmem with ⟨k, hk, hslot, _⟩
  have hlen : (s.textureIDs ++ [(⟨tag, textureID⟩ : TEXTURE_ID)]).length ≤ 16 := by
    simp only [List.length_append, List.length_singleton]
    have : s.textureIDs.length < 16 := hcap
    omega
  constructor
  · rw [show FindTextureSlot { s with textureIDs := s.textureIDs ++ [⟨tag, textureID⟩] } tag =
        findTextureSlotAux (s.textureIDs ++ [⟨tag, textureID⟩]) tag 0 from rfl, hslot]
    omega
  · rw [show FindTextureSlot { s with textureIDs := s.textureIDs ++ [⟨tag, textureID⟩] } tag =
        findTextureSlotAux (s.textureIDs ++ [⟨tag, textureID⟩]) tag 0 from rfl, hslot]
    omega

/-- Witness for C4 at a concrete input: loading a 4-channel image into
the empty registry under tag `desk`. -/
theorem createGLTexture_success_findSlot_witness :
    (CreateGLTexture (some ⟨2, 2, 4⟩) 5 "desk" ⟨[], []⟩).1 = true ∧
    0 ≤ FindTextureSlot (CreateGLTexture (some ⟨2, 2, 4⟩) 5 "desk" ⟨[], []⟩).2 "desk" ∧
    FindTextureSlot (CreateGLTexture (some ⟨2, 2, 4⟩) 5 "desk" ⟨[], []⟩).2 "desk" ≤ 15 :=
  createGLTexture_success_findSlot ⟨2, 2, 4⟩ 5 "desk" ⟨[], []⟩ (Or.inr rfl) (by decide)

/-- C5: loading an image that decoded with a channel count other than 3
or 4 returns `false` and leaves the registry state — its slot sequence
and occupied-slot count — unchanged. -/
theorem createGLTexture_badChannels (img : ImageInfo) (textureID : Int)
    (tag : String) (s : SceneManagerState)
    (h3 : img.colorChannels ≠ 3) (h4 : img.colorChannels ≠ 4) :
    CreateGLTexture (some img) textureID tag s = (false, s) := by
  simp [CreateGLTexture, h3, h4]

/-- Witness for C5 at a concrete input: a 2-channel image on the empty
registry. -/
theorem createGLTexture_badChannels_witness :
    CreateGLTexture (some ⟨8, 8, 2⟩) 3 "gray" ⟨[], []⟩ = (false, ⟨[], []⟩) :=
  createGLTexture_badChannels ⟨8, 8, 2⟩ 3 "gray" ⟨[], []⟩ (by decide) (by decide)

/-- C9: on any registry state whose stored handles all differ from the
sentinel `-1`, `FindTextureID` and `FindTextureSlot` are consistent:
`FindTextureID` returns `-1` exactly when `FindTextureSlot` does, and
when both succeed the returned handle is the one stored at the returned
slot index (both select the first matching entry in insertion order). -/
theorem findTexture_id_slot_consistent (s : SceneManagerState) (tag : String)
    (hID : ∀ t ∈ s.textureIDs, t.ID ≠ -1) :
    (FindTextureID s tag = -1 ↔ FindTextureSlot s tag = -1) ∧
    (FindTextureSlot s tag ≠ -1 →
      ∃ k : Nat, FindTextureSlot s tag = (k : Int) ∧
        ∃ t, s.textureIDs[k]? = some t ∧ FindTextureID s tag = t.ID) := by
  by_cases hm : ∃ t ∈ s.textureIDs, t.tag = tag
  · rcases findTextureAux_found s.textureIDs tag 0 hm with ⟨k, hk, hslot, t, hget, htag, hid⟩
    have hslot0 : FindTextureSlot s tag = (k : Int) := by
      rw [FindTextureSlot, hslot]; congr 1; omega
    have hid0 : FindTextureID s tag = t.ID := hid
    constructor
    · constructor
      · intro h
        exact absurd (hid0 ▸ h) (hID t (mem_of_getElem?_eq_some hget))
      · intro h
        rw [hslot0] at h
        exact absurd h (by omega)
    · intro _
      exact ⟨k, hslot0, t, hget, hid0⟩
  · push_neg at hm
    have h1 : FindTextureID s tag = -1 :=
      (findTextureIDAux_eq_neg_one s.textureIDs tag hID).mpr hm
    have h2 : FindTextureSlot s tag = -1 :=
      (findTextureSlotAux_eq_neg_one s.textureIDs tag 0).mpr hm
    exact ⟨by rw [h1, h2], fun h => absurd h2 h⟩

/-- A registry holding one loaded texture tagged `desk` with GL name 5. -/
def deskState : SceneManagerState :=
  ⟨[⟨"desk", 5⟩], []⟩

/-- Witness for C9 at a concrete input: the one-texture registry and the
registered tag `desk`. -/
theorem findTexture_id_slot_consistent_witness :
    (FindTextureID deskState "desk" = -1 ↔ FindTextureSlot deskState "desk" = -1) ∧
    (FindTextureSlot deskState "desk" ≠ -1 →
      ∃ k : Nat, FindTextureSlot deskState "desk" = (k : Int) ∧
        ∃ t, deskState.textureIDs[k]? = some t ∧ FindTextureID deskState "desk" = t.ID) :=
  findTexture_id_slot_consistent deskState "desk" (by decide)

section MaterialLemmas

/-- The material scan skips over a prefix in which no tag matches. -/
theorem findMaterialAux_append_of_no_match (l rest : List OBJECT_MATERIAL)
    (tag : String) (m : OBJECT_MATERIAL) (h : ∀ e ∈ l, e.tag ≠ tag) :
    findMaterialAux (l ++ rest) tag m = findMaterialAux rest tag m := by
  induction l with
  | nil => rfl
  | cons d ds ih =>
    rw [List.cons_append, findMaterialAux, if_neg (h d (by simp))]
    exact ih fun e he => h e (List.mem_cons_of_mem _ he)

/-- With no matching tag anywhere, the material scan leaves the
out-parameter untouched. -/
theorem findMaterialAux_no_match (l : List OBJECT_MATERIAL) (tag : String)
    (m : OBJECT_MATERIAL) (h : ∀ e ∈ l, e.tag ≠ tag) :
    findMaterialAux l tag m = m := by
  have := findMaterialAux_append_of_no_match l [] tag m h
  simpa using this

end MaterialLemmas

/-- C7: on any registry containing two descriptors with the same tag —
`d1` first (no earlier descriptor carries the tag) and `d2` registered
later — `FindMaterial` on that tag returns `true` and copies `d1`'s
diffuse color, specular color and shininess into the out-parameter: the
later duplicate `d2` is shadowed. -/
theorem findMaterial_first_match_wins (l1 l2 l3 : List OBJECT_MATERIAL)
    (d1 d2 : OBJECT_MATERIAL) (tex : List TEXTURE_ID) (m0 : OBJECT_MATERIAL)
    (_hdup : d2.tag = d1.tag) (hpre : ∀ e ∈ l1, e.tag ≠ d1.tag) :
    FindMaterial ⟨tex, l1 ++ d1 :: (l2 ++ d2 :: l3)⟩ d1.tag m0 =
      (true, { m0 with diffuseColor := d1.diffuseColor,
                       specularColor := d1.specularColor,
                       shininess := d1.shininess }) := by
  rw [FindMaterial]
  rw [if_neg (by simp)]
  rw [show (SceneManagerState.mk tex (l1 ++ d1 :: (l2 ++ d2 :: l3))).objectMaterials =
      l1 ++ d1 :: (l2 ++ d2 :: l3) from rfl]
  rw [findMaterialAux_append_of_no_match l1 _ _ _ hpre]
  rw [findMaterialAux, if_pos rfl]

/-- The first `wood` material registered in the source's
`DefineObjectMaterials`. -/
def woodA : OBJECT_MATERIAL :=
  ⟨(0.3, 0.2, 0.1), (0.1, 0.1, 0.1), 0.3, "wood"⟩

/-- A second, different descriptor under the duplicate tag `wood`. -/
def woodB : OBJECT_MATERIAL :=
  ⟨(0.6, 0.5, 0.4), (0.2, 0.2, 0.2), 8, "wood"⟩

/-- A fixed value for a material out-parameter before a lookup call. -/
def priorMaterial : OBJECT_MATERIAL :=
  ⟨(0.5, 0.5, 0.5), (0.3, 0.3, 0.3), 30, "plastic"⟩

/-- Witness for C7 at a concrete input: `wood` registered twice with
different values; lookup returns the first registration's values. -/
theorem findMaterial_first_match_wins_witness :
    FindMaterial ⟨[], [woodA, woodB]⟩ "wood" priorMaterial =
      (true, { priorMaterial with diffuseColor := woodA.diffuseColor,
                                  specularColor := woodA.specularColor,
                                  shininess := woodA.shininess }) :=
  findMaterial_first_match_wins [] [] [] woodA woodB [] priorMaterial rfl (by simp)

/-- C10: `FindMaterial` writes its out-parameter only when some
registered descriptor's tag matches: whenever no descriptor matches, the
out-parameter keeps exactly its prior value — even though on a non-empty
registry the call still returns `true`. -/
theorem findMaterial_preserves_out_param (s : SceneManagerState) (tag : String)
    (m0 : OBJECT_MATERIAL) (h : ∀ d ∈ s.objectMaterials, d.tag ≠ tag) :
    (FindMaterial s tag m0).2 = m0 ∧
    (s.objectMaterials ≠ [] → (FindMaterial s tag m0).1 = true) := by
  constructor
  · rw [FindMaterial]
    by_cases he : s.objectMaterials.length = 0
    · rw [if_pos he]
    · rw [if_neg he]
      exact findMaterialAux_no_match _ _ _ h
  · intro hne
    rw [FindMaterial, if_neg (by simpa [List.length_eq_zero] using hne)]

/-- A registry whose only material is the source's `marble` descriptor. -/
def marbleOnly : SceneManagerState :=
  ⟨[], [⟨(0.8, 0.8, 0.8), (0.9, 0.9, 0.9), 50, "marble"⟩]⟩

/-- Witness for C10 at a concrete input: looking up the unregistered tag
`wood` in the marble-only registry. -/
theorem findMaterial_preserves_out_param_witness :
    (FindMaterial marbleOnly "wood" priorMaterial).2 = priorMaterial ∧
    (marbleOnly.objectMaterials ≠ [] → (FindMaterial marbleOnly "wood" priorMaterial).1 = true) :=
  findMaterial_preserves_out_param marbleOnly "wood" priorMaterial
    (by intro d hd; simp [marbleOnly] at hd; subst hd; decide)

/-- C8: `SetShaderColor` stages the RGBA color uniform with exactly the
four given components and clears the use-texture flag, making flat color
and textured sampling mutually exclusive for the next draw. -/
theorem setShaderColor_stages (r g b a : ℝ) (sh : ShaderState) :
    (SetShaderColor r g b a sh).objectColor = (r, g, b, a) ∧
    (SetShaderColor r g b a sh).bUseTexture = false :=
  ⟨rfl, rfl⟩

/-- A staged shader state whose material uniforms were previously set to
the `marble` values. -/
def stagedMarble : ShaderState :=
  ⟨(1, 1, 1, 1), false, -1, (0.8, 0.8, 0.8), (0.9, 0.9, 0.9), 50⟩

/-- One possible value of the default-initialized (indeterminate) local
`OBJECT_MATERIAL material` inside `SetShaderMaterial`. -/
def indeterminateLocal : OBJECT_MATERIAL :=
  ⟨(0, 0, 0), (0, 0, 0), 0, ""⟩

/-- C3: the claim says `SetShaderMaterial` with a tag matching no
registered material leaves the previously staged material uniforms
untouched.  On a non-empty registry the code's `FindMaterial` call
returns `true` even with no match, so the code stages the
default-initialized local's indeterminate member values: with only
`marble` registered and previously staged, `SetShaderMaterial "wood"`
overwrites the staged diffuse color (and the other material uniforms)
with the local's value instead of leaving them untouched. -/
theorem setShaderMaterial_clobbers_on_miss :
    (SetShaderMaterial marbleOnly "wood" indeterminateLocal stagedMarble).materialDiffuseColor ≠
      stagedMarble.materialDiffuseColor ∧
    (SetShaderMaterial marbleOnly "wood" indeterminateLocal stagedMarble).materialDiffuseColor =
      indeterminateLocal.diffuseColor := by
  have hstage : SetShaderMaterial marbleOnly "wood" indeterminateLocal stagedMarble =
      { stagedMarble with
          materialDiffuseColor := indeterminateLocal.diffuseColor,
          materialSpecularColor := indeterminateLocal.specularColor,
          materialShininess := indeterminateLocal.shininess } := by
    rw [SetShaderMaterial, if_pos (by decide)]
    have hfm : FindMaterial marbleOnly "wood" indeterminateLocal =
        (true, indeterminateLocal) := by
      rw [FindMaterial, if_neg (by decide)]
      refine congrArg _ ?_
      exact findMaterialAux_no_match _ _ _ (by
        intro d hd
        simp [marbleOnly] at hd
        subst hd
        decide)
    rw [hfm]
    rfl
  rw [hstage]
  constructor
  · simp [stagedMarble, indeterminateLocal, Prod.ext_iff]
    norm_num
  · rfl

section TransformComposer

variable (K : Type) [Field K]

/-- `glm::radians`: degrees times pi over 180 (glm multiplies by the
literal constant 0.01745329251994329576923690768489 = pi/180; in the
real-number idealization of `float` this is `d * (pi / 180)`). -/
def glmRadians (pi d : K) : K :=
  d * (pi / 180)

/-- `glm::scale(v)`: the scaling matrix with `v` on the diagonal.
glm stores matrices column-major with entry `m[col][row]`; all glm
matrices here are written as mathematical matrices with entry
`(row, col)`, under which glm's `operator*` is the ordinary matrix
product. -/
def glmScale (v : K × K × K) : Matrix (Fin 4) (Fin 4) K :=
  !![v.1, 0, 0, 0;
     0, v.2.1, 0, 0;
     0, 0, v.2.2, 0;
     0, 0, 0, 1]

/-- `glm::translate(v)`: the identity with `v` in the last column. -/
def glmTranslate (v : K × K × K) : Matrix (Fin 4) (Fin 4) K :=
  !![1, 0, 0, v.1;
     0, 1, 0, v.2.1;
     0, 0, 1, v.2.2;
     0, 0, 0, 1]

/-- `glm::rotate(angle, axis)` from gtx/transform (applied to the
identity): the axis-angle (Rodrigues) rotation matrix, with `c`, `s` the
cosine and sine of the angle and `axis` the rotation axis.  glm first
normalizes the axis; the three call sites pass the unit axes `(1,0,0)`,
`(0,1,0)`, `(0,0,1)`, for which normalization is the identity, so the
axis here is taken already normalized. -/
def glmRotate (c s : K) (axis : K × K × K) : Matrix (Fin 4) (Fin 4) K :=
  let a0 := axis.1
  let a1 := axis.2.1
  let a2 := axis.2.2
  let t0 := (1 - c) * a0
  let t1 := (1 - c) * a1
  let t2 := (1 - c) * a2
  !![c + t0 * a0, t1 * a0 - s * a2, t2 * a0 + s * a1, 0;
     t0 * a1 + s * a2, c + t1 * a1, t2 * a1 - s * a0, 0;
     t0 * a2 - s * a1, t1 * a2 + s * a0, c + t2 * a2, 0;
     0, 0, 0, 1]

/-- `glm::mat3(m)` on a 4x4 matrix: the upper-left 3x3 block. -/
def glmMat3 (m : Matrix (Fin 4) (Fin 4) K) : Matrix (Fin 3) (Fin 3) K :=
  Matrix.of fun i j : Fin 3 => m i.castSucc j.castSucc

/-- The 3x3 determinant as computed inside `glm::inverse(mat3)`
(cofactor expansion along the first row, in mathematical `(row, col)`
indexing of glm's column-major code). -/
def glmDet3 (m : Matrix (Fin 3) (Fin 3) K) : K :=
  m 0 0 * (m 1 1 * m 2 2 - m 1 2 * m 2 1)
    - m 0 1 * (m 1 0 * m 2 2 - m 1 2 * m 2 0)
    + m 0 2 * (m 1 0 * m 2 1 - m 1 1 * m 2 0)

/-- `glm::inverse` on a 3x3 matrix: each cofactor times the reciprocal
of the determinant (glm's `OneOverDeterminant`), in mathematical
`(row, col)` indexing. -/
def glmInverse3 (m : Matrix (Fin 3) (Fin 3) K) : Matrix (Fin 3) (Fin 3) K :=
  let oneOverDet := (glmDet3 K m)⁻¹
  !![(m 1 1 * m 2 2 - m 1 2 * m 2 1) * oneOverDet,
     -(m 0 1 * m 2 2 - m 0 2 * m 2 1) * oneOverDet,
     (m 0 1 * m 1 2 - m 0 2 * m 1 1) * oneOverDet;
     -(m 1 0 * m 2 2 - m 1 2 * m 2 0) * oneOverDet,
     (m 0 0 * m 2 2 - m 0 2 * m 2 0) * oneOverDet,
     -(m 0 0 * m 1 2 - m 0 2 * m 1 0) * oneOverDet;
     (m 1 0 * m 2 1 - m 1 1 * m 2 0) * oneOverDet,
     -(m 0 0 * m 2 1 - m 0 1 * m 2 0) * oneOverDet,
     (m 0 0 * m 1 1 - m 0 1 * m 1 0) * oneOverDet]

/-- `SceneManager::SetTransformations`, parametrized by the cosine,
sine and pi used for the degree-to-radian conversions (instantiated with
the real functions in the theorems; the generic field keeps the
definition executable).  Builds scale, the three axis rotations and the
translation, composes `modelView = translation * rotationZ * rotationY *
rotationX * scale`, computes `normal = transpose(inverse(mat3
(modelView)))`, and returns the staged `(model, normal)` uniform pair. -/
def SetTransformations (cosf sinf : K → K) (pi : K)
    (scaleXYZ : K × K × K)
    (XrotationDegrees YrotationDegrees ZrotationDegrees : K)
    (positionXYZ : K × K × K) :
    Matrix (Fin 4) (Fin 4) K × Matrix (Fin 3) (Fin 3) K :=
  let scale := glmScale K scaleXYZ
  let rotationX := glmRotate K (cosf (glmRadians K pi XrotationDegrees))
    (sinf (glmRadians K pi XrotationDegrees)) (1, 0, 0)
  let rotationY := glmRotate K (cosf (glmRadians K pi YrotationDegrees))
    (sinf (glmRadians K pi YrotationDegrees)) (0, 1, 0)
  let rotationZ := glmRotate K (cosf (glmRadians K pi ZrotationDegrees))
    (sinf (glmRadians K pi ZrotationDegrees)) (0, 0, 1)
  let translation := glmTranslate K positionXYZ
  let modelView := translation * rotationZ * rotationY * rotationX * scale
  let normal := (glmInverse3 K (glmMat3 K modelView)).transpose
  (modelView, normal)

/-- Modelled from the spec: `Scale(scale)` of the spec's composition
formula. -/
def specScale (v : K × K × K) : Matrix (Fin 4) (Fin 4) K :=
  !![v.1, 0, 0, 0;
     0, v.2.1, 0, 0;
     0, 0, v.2.2, 0;
     0, 0, 0, 1]

/-- Modelled from the spec: `Translate(position)` of the spec's
composition formula. -/
def specTranslate (v : K × K × K) : Matrix (Fin 4) (Fin 4) K :=
  !![1, 0, 0, v.1;
     0, 1, 0, v.2.1;
     0, 0, 1, v.2.2;
     0, 0, 0, 1]

/-- Modelled from the spec: `RotateX(angle)`, the standard rotation
about the x-axis, with `c`, `s` the cosine and sine of the angle. -/
def specRotateX (c s : K) : Matrix (Fin 4) (Fin 4) K :=
  !![1, 0, 0, 0;
     0, c, -s, 0;
     0, s, c, 0;
     0, 0, 0, 1]

/-- Modelled from the spec: `RotateY(angle)`, the standard rotation
about the y-axis. -/
def specRotateY (c s : K) : Matrix (Fin 4) (Fin 4) K :=
  !![c, 0, s, 0;
     0, 1, 0, 0;
     -s, 0, c, 0;
     0, 0, 0, 1]

/-- Modelled from the spec: `RotateZ(angle)`, the standard rotation
about the z-axis. -/
def specRotateZ (c s : K) : Matrix (Fin 4) (Fin 4) K :=
  !![c, -s, 0, 0;
     s, c, 0, 0;
     0, 0, 1, 0;
     0, 0, 0, 1]

end TransformComposer

section TransformLemmas

variable (K : Type) [Field K]

/-- glm's axis-angle matrix at the unit x-axis is the standard rotation
about x. -/
theorem glmRotate_unitX (c s : K) : glmRotate K c s (1, 0, 0) = specRotateX K c s := by
  unfold glmRotate specRotateX
  ext i j
  fin_cases i <;> fin_cases j <;> simp

/-- glm's axis-angle matrix at the unit y-axis is the standard rotation
about y. -/
theorem glmRotate_unitY (c s : K) : glmRotate K c s (0, 1, 0) = specRotateY K c s := by
  unfold glmRotate specRotateY
  ext i j
  fin_cases i <;> fin_cases j <;> simp

/-- glm's axis-angle matrix at the unit z-axis is the standard rotation
about z. -/
theorem glmRotate_unitZ (c s : K) : glmRotate K c s (0, 0, 1) = specRotateZ K c s := by
  unfold glmRotate specRotateZ
  ext i j
  fin_cases i <;> fin_cases j <;> simp

/-- At cosine 1 and sine 0 the axis-angle matrix is the identity, for
any axis. -/
theorem glmRotate_id (axis : K × K × K) : glmRotate K 1 0 axis = 1 := by
  unfold glmRotate
  ext i j
  fin_cases i <;> fin_cases j <;>
    simp [Matrix.one_apply, Matrix.vecHead, Matrix.vecTail]

/-- Scaling by `(1,1,1)` is the identity. -/
theorem glmScale_one : glmScale K (1, 1, 1) = 1 := by
  unfold glmScale
  ext i j
  fin_cases i <;> fin_cases j <;>
    simp [Matrix.one_apply, Matrix.vecHead, Matrix.vecTail]

/-- Translating by `(0,0,0)` is the identity. -/
theorem glmTranslate_zero : glmTranslate K (0, 0, 0) = 1 := by
  unfold glmTranslate
  ext i j
  fin_cases i <;> fin_cases j <;>
    simp [Matrix.one_apply, Matrix.vecHead, Matrix.vecTail]

/-- The upper-left block of the 4x4 identity is the 3x3 identity. -/
theorem glmMat3_one : glmMat3 K 1 = 1 := by
  unfold glmMat3
  ext i j
  fin_cases i <;> fin_cases j <;> simp [Matrix.one_apply]

/-- glm's cofactor determinant is the determinant. -/
theorem glmDet3_eq_det (m : Matrix (Fin 3) (Fin 3) K) : glmDet3 K m = m.det := by
  rw [Matrix.det_fin_three]
  unfold glmDet3
  ring

/-- glm's explicit cofactor inverse is the 3x3 matrix inverse. -/
theorem glmInverse3_eq_inv (m : Matrix (Fin 3) (Fin 3) K) : glmInverse3 K m = m⁻¹ := by
  rw [Matrix.inv_def, Ring.inverse_eq_inv, Matrix.adjugate_fin_three]
  unfold glmInverse3
  rw [glmDet3_eq_det]
  ext i j
  fin_cases i <;> fin_cases j <;> simp [Matrix.smul_apply] <;> ring

/-- The cofactor inverse of the identity is the identity. -/
theorem glmInverse3_one : glmInverse3 K 1 = 1 := by
  rw [glmInverse3_eq_inv, inv_one]

/-- The staged model matrix, unfolded: the composition the source
builds. -/
theorem SetTransformations_fst (cosf sinf : K → K) (pi : K)
    (scaleXYZ : K × K × K) (x y z : K) (positionXYZ : K × K × K) :
    (SetTransformations K cosf sinf pi scaleXYZ x y z positionXYZ).1 =
      glmTranslate K positionXYZ *
        glmRotate K (cosf (glmRadians K pi z)) (sinf (glmRadians K pi z)) (0, 0, 1) *
        glmRotate K (cosf (glmRadians K pi y)) (sinf (glmRadians K pi y)) (0, 1, 0) *
        glmRotate K (cosf (glmRadians K pi x)) (sinf (glmRadians K pi x)) (1, 0, 0) *
        glmScale K scaleXYZ :=
  rfl

/-- The staged normal matrix, unfolded: the transposed cofactor inverse
of the model's upper-left block. -/
theorem SetTransformations_snd (cosf sinf : K → K) (pi : K)
    (scaleXYZ : K × K × K) (x y z : K) (positionXYZ : K × K × K) :
    (SetTransformations K cosf sinf pi scaleXYZ x y z positionXYZ).2 =
      (glmInverse3 K (glmMat3 K
        (SetTransformations K cosf sinf pi scaleXYZ x y z positionXYZ).1)).transpose :=
  rfl

end TransformLemmas

/-- C6: `SetTransformations` stages the model matrix `Translate(position)
* RotateZ * RotateY * RotateX * Scale(scale)` with each rotation's angle
converted from degrees to radians, stages the normal matrix
`transpose(inverse(upperLeft3x3(model)))` (stated for invertible upper
blocks, where the matrix inverse is meaningful), and at scale `(1,1,1)`,
zero rotations and position `(0,0,0)` stages the identity model and
normal matrices. -/
theorem setTransformations_spec (scaleXYZ positionXYZ : ℝ × ℝ × ℝ) (x y z : ℝ) :
    ((SetTransformations ℝ Real.cos Real.sin Real.pi scaleXYZ x y z positionXYZ).1 =
      specTranslate ℝ positionXYZ *
        specRotateZ ℝ (Real.cos (glmRadians ℝ Real.pi z)) (Real.sin (glmRadians ℝ Real.pi z)) *
        specRotateY ℝ (Real.cos (glmRadians ℝ Real.pi y)) (Real.sin (glmRadians ℝ Real.pi y)) *
        specRotateX ℝ (Real.cos (glmRadians ℝ Real.pi x)) (Real.sin (glmRadians ℝ Real.pi x)) *
        specScale ℝ scaleXYZ) ∧
    ((glmMat3 ℝ (SetTransformations ℝ Real.cos Real.sin Real.pi
        scaleXYZ x y z positionXYZ).1).det ≠ 0 →
      (SetTransformations ℝ Real.cos Real.sin Real.pi scaleXYZ x y z positionXYZ).2 =
        ((glmMat3 ℝ (SetTransformations ℝ Real.cos Real.sin Real.pi
          scaleXYZ x y z positionXYZ).1)⁻¹).transpose) ∧
    SetTransformations ℝ Real.cos Real.sin Real.pi (1, 1, 1) 0 0 0 (0, 0, 0) = (1, 1) := by
  refine ⟨?_, ?_, ?_⟩
  · rw [SetTransformations_fst, glmRotate_unitX, glmRotate_unitY, glmRotate_unitZ]
    rfl
  · intro _
    rw [SetTransformations_snd, glmInverse3_eq_inv]
  · have hone : (SetTransformations ℝ Real.cos Real.sin Real.pi
        (1, 1, 1) 0 0 0 (0, 0, 0)).1 = 1 := by
      rw [SetTransformations_fst]
      rw [show glmRadians ℝ Real.pi 0 = 0 by rw [glmRadians]; ring]
      rw [Real.cos_zero, Real.sin_zero, glmRotate_id, glmRotate_id, glmRotate_id,
        glmScale_one, glmTranslate_zero]
      simp
    have htwo : (SetTransformations ℝ Real.cos Real.sin Real.pi
        (1, 1, 1) 0 0 0 (0, 0, 0)).2 = 1 := by
      rw [SetTransformations_snd, hone, glmMat3_one, glmInverse3_one, Matrix.transpose_one]
    exact Prod.ext hone htwo

/-- Witness for C6 at a concrete input: at the neutral transformation
the upper-left block is invertible and the staged normal matrix is the
transposed inverse of the model's upper-left block. -/
theorem setTransformations_spec_witness :
    (SetTransformations ℝ Real.cos Real.sin Real.pi (1, 1, 1) 0 0 0 (0, 0, 0)).2 =
      ((glmMat3 ℝ (SetTransformations ℝ Real.cos Real.sin Real.pi
        (1, 1, 1) 0 0 0 (0, 0, 0)).1)⁻¹).transpose := by
  refine (setTransformations_spec (1, 1, 1) (0, 0, 0) 0 0 0).2.1 ?_
  have hone : (SetTransformations ℝ Real.cos Real.sin Real.pi
      (1, 1, 1) 0 0 0 (0, 0, 0)).1 = 1 :=
    congrArg Prod.fst (setTransformations_spec (1, 1, 1) (0, 0, 0) 0 0 0).2.2
  rw [hone, glmMat3_one, Matrix.det_one]
  exact one_ne_zero
